import Mathlib

/-!
Shallow embedding of `src/ext/server.py` of the repository
Blockether/foundation-react, and proofs about its startup contract.

The script reads the environment variables `BLOCKETHER_LLM_API_BASE_URL`,
`BLOCKETHER_LLM_API_KEY` and `PORT`, validates the base URL, constructs a
chain of framework objects (in-memory storage, chat-model client, agent,
server application, web handler) and, when run as the main entry point,
starts a uvicorn server on host `0.0.0.0` at the configured port.

The embedding models module-level execution as a pure function from the
process environment and an `isMain` flag (whether `__name__ == "__main__"`)
to a `Run`: an ordered trace of observable events (object constructions and
the server-run call) together with an `Except` result (the constructed
bindings, or the Python exception that escaped).
-/

/-- A process environment: a partial map from variable names to values.
`os.getenv(name, None)` is `env name`; `os.environ.get(name, d)` is
`(env name).getD d`. -/
def Env : Type := String → Option String

/-- Python truthiness of an `Optional[str]` value: `None` and the empty
string are falsy, every other string is truthy.  This is the semantics of
`if not MODEL_BASE_URL` in the script. -/
def pyTruthy : Option String → Bool
  | none => false
  | some s => !(s == "")

/-- Python `str.strip()` whitespace for the ASCII range: space, tab,
newline, vertical tab, form feed, carriage return. -/
def isPySpace (c : Char) : Bool :=
  c == ' ' || c == '\t' || c == '\n' || c == '\x0b' || c == '\x0c' || c == '\r'

/-- Strip leading and trailing whitespace from a character list, as
Python `int()` does to its string argument before parsing. -/
def pyStripChars (cs : List Char) : List Char :=
  ((cs.dropWhile isPySpace).reverse.dropWhile isPySpace).reverse

/-- Validity of the digit part of a Python base-10 integer literal:
a nonempty sequence of ASCII decimal digits in which underscores may
appear only between two digits.  The flag records whether the previous
character was a digit (initially `false`, so the sequence must begin
with a digit and may not be empty).  Python also accepts non-ASCII
decimal digits; those are outside the scope of this model. -/
def pyDigitsOk : List Char → Bool → Bool
  | [], prevDigit => prevDigit
  | c :: rest, prevDigit =>
    if c.isDigit then pyDigitsOk rest true
    else if c == '_' then prevDigit && pyDigitsOk rest false
    else false

/-- Numeric value of a valid digit sequence, skipping underscores. -/
def digitsVal (cs : List Char) : Nat :=
  cs.foldl (fun acc c => if c == '_' then acc else acc * 10 + (c.toNat - '0'.toNat)) 0

/-- Python `int(s)` on a string at base 10: strip whitespace, allow one
optional sign, then a digit sequence per `pyDigitsOk`.  Returns `none`
where CPython raises `ValueError: invalid literal for int() with base 10`. -/
def pyInt (s : String) : Option Int :=
  let cs := pyStripChars s.data
  match cs with
  | '+' :: rest => if pyDigitsOk rest false then some ((digitsVal rest : Nat) : Int) else none
  | '-' :: rest => if pyDigitsOk rest false then some (-((digitsVal rest : Nat) : Int)) else none
  | _ => if pyDigitsOk cs false then some ((digitsVal cs : Nat) : Int) else none

/-- Whether `needle` occurs contiguously at the head of `haystack`. -/
def leadsWith : List Char → List Char → Bool
  | [], _ => true
  | _ :: _, [] => false
  | a :: as, b :: bs => a == b && leadsWith as bs

/-- Whether `needle` occurs contiguously anywhere in the list. -/
def containsSeq (needle : List Char) : List Char → Bool
  | [] => leadsWith needle []
  | c :: rest => leadsWith needle (c :: rest) || containsSeq needle rest

/-- Whether the string `needle` occurs as a substring of `haystack`;
used to state that an error message mentions a variable name. -/
def mentions (needle haystack : String) : Bool :=
  containsSeq needle.data haystack.data

/-- The framework's in-memory storage backend `InMemoryDb()`.  The script
passes no constructor arguments; its internal state is framework-owned and
not part of this repository, so it is modelled as a plain token. -/
inductive InMemoryDb where
  | mk
deriving DecidableEq

/-- The chat-model client `OpenAIChat(id="gpt-4o", base_url=MODEL_BASE_URL)`.
Only the two fields the script sets are modelled; `base_url` keeps the
`Optional[str]` type of `MODEL_BASE_URL`. -/
structure OpenAIChat where
  id : String
  base_url : Option String
deriving DecidableEq

/-- The conversational agent `Agent(model=blockether_model, db=storage)`. -/
structure Agent where
  model : OpenAIChat
  db : InMemoryDb
deriving DecidableEq

/-- The AGUI interface object `AGUI(agent=conversational_agent)` passed to
the `AgentOS` constructor. -/
structure AGUI where
  agent : Agent
deriving DecidableEq

/-- The server-application object `AgentOS(...)` with the fields the
script sets: description, agent list, the MCP protocol-server flag, and
the interface list. -/
structure AgentOS where
  description : String
  agents : List Agent
  enable_mcp_server : Bool
  interfaces : List AGUI
deriving DecidableEq

/-- Modelled from the spec: the framework method `AgentOS.get_app()`,
whose implementation is not in this repository, returns "the
application's web handler" for the given server-application object;
it is modelled as a wrapper holding that object. -/
structure FastAPIApp where
  agent_os : AgentOS
deriving DecidableEq

/-- The call `agent_os.get_app()`. -/
def AgentOS.get_app (o : AgentOS) : FastAPIApp :=
  { agent_os := o }

/-- The Python exceptions the script can raise at module level:
`ValueError` from the explicit `raise` and from `int()`. -/
inductive PyError where
  | valueError (msg : String)
deriving DecidableEq

/-- Observable events of a run of the script, in program order:
each top-level object construction, and the `uvicorn.run` call that
opens the network listener. -/
inductive Event where
  | constructStorage (s : InMemoryDb)
  | constructModel (m : OpenAIChat)
  | constructAgent (a : Agent)
  | constructAgentOS (o : AgentOS)
  | getApp (a : FastAPIApp)
  | uvicornRun (a : FastAPIApp) (host : String) (port : Int)
deriving DecidableEq

/-- Whether an event is the `uvicorn.run` call (the only event that
opens a network listener). -/
def Event.isListen : Event → Bool
  | .uvicornRun _ _ _ => true
  | _ => false

/-- The kind of object an event constructs (or `listen` for the
server-run call), forgetting the payload. -/
inductive ObjKind where
  | storage
  | model
  | agent
  | agentOS
  | app
  | listen
deriving DecidableEq

/-- Project an event to its kind. -/
def Event.kind : Event → ObjKind
  | .constructStorage _ => .storage
  | .constructModel _ => .model
  | .constructAgent _ => .agent
  | .constructAgentOS _ => .agentOS
  | .getApp _ => .app
  | .uvicornRun _ _ _ => .listen

/-- The module-level bindings the script holds after successful
execution of its construction sequence. -/
structure ScriptResult where
  storage : InMemoryDb
  blockether_model : OpenAIChat
  conversational_agent : Agent
  agent_os : AgentOS
  app : FastAPIApp
deriving DecidableEq

/-- The outcome of executing the module: the ordered trace of events
that happened before control returned or an exception escaped, and
either the resulting bindings or the escaped exception. -/
structure Run where
  trace : List Event
  result : Except PyError ScriptResult

/-- Whether a run ended without an exception. -/
def Run.succeeded (r : Run) : Bool :=
  match r.result with
  | .ok _ => true
  | .error _ => false

/-- Whether a run opened a network listener. -/
def opensListener (r : Run) : Bool :=
  r.trace.any Event.isListen

/-- The listen events of a run, in order. -/
def listenEvents (r : Run) : List Event :=
  r.trace.filter Event.isListen

/-- The kinds of the construction events of a run, in order
(listen events filtered out). -/
def constructionKinds (r : Run) : List ObjKind :=
  (r.trace.filter (fun e => !e.isListen)).map Event.kind

/-- The message of the script's explicit `raise ValueError(...)`. -/
def missingBaseUrlMsg : String :=
  "BLOCKETHER_LLM_API_BASE_URL environment variable is not set."

/-- The CPython `ValueError` message of a failed `int(s)` at base 10
(string repr simplified to plain single quotes). -/
def intErrorMsg (s : String) : String :=
  "invalid literal for int() with base 10: " ++ "\x27" ++ s ++ "\x27"

/-- The construction sequence of lines 18-31 of the script, as a function
of the (truthy) value of `MODEL_BASE_URL`: `storage = InMemoryDb()`,
`blockether_model = OpenAIChat(id="gpt-4o", base_url=MODEL_BASE_URL)`,
`conversational_agent = Agent(model=blockether_model, db=storage)`,
`agent_os = AgentOS(description=..., agents=[conversational_agent],
enable_mcp_server=True, interfaces=[AGUI(agent=conversational_agent)])`,
`app = agent_os.get_app()`. -/
def buildObjects (MODEL_BASE_URL : Option String) : ScriptResult :=
  let storage : InMemoryDb := .mk
  let blockether_model : OpenAIChat := { id := "gpt-4o", base_url := MODEL_BASE_URL }
  let conversational_agent : Agent := { model := blockether_model, db := storage }
  let agent_os : AgentOS :=
    { description := "Example app with MCP enabled"
      agents := [conversational_agent]
      enable_mcp_server := true
      interfaces := [{ agent := conversational_agent }] }
  let app : FastAPIApp := agent_os.get_app
  { storage := storage, blockether_model := blockether_model,
    conversational_agent := conversational_agent, agent_os := agent_os, app := app }

/-- The trace of construction events of the script's construction
sequence, in program order. -/
def buildTrace (r : ScriptResult) : List Event :=
  [.constructStorage r.storage, .constructModel r.blockether_model,
   .constructAgent r.conversational_agent, .constructAgentOS r.agent_os, .getApp r.app]

/-- Module-level execution of `src/ext/server.py`, line by line:
read `BLOCKETHER_LLM_API_BASE_URL` and `BLOCKETHER_LLM_API_KEY` via
`os.getenv(_, None)`; raise `ValueError` if the base URL is falsy;
run the construction sequence (`buildObjects`); then, only under
`__name__ == "__main__"` (the `isMain` flag), call
`uvicorn.run(app, host="0.0.0.0", port=int(os.environ.get("PORT", "8080")))`,
where a non-integer `PORT` makes `int()` raise before the listener opens. -/
def runScript (env : Env) (isMain : Bool) : Run :=
  let MODEL_BASE_URL : Option String := env "BLOCKETHER_LLM_API_BASE_URL"
  let _MODEL_API_KEY : Option String := env "BLOCKETHER_LLM_API_KEY"
  if !(pyTruthy MODEL_BASE_URL) then
    { trace := [], result := .error (.valueError missingBaseUrlMsg) }
  else
    let r : ScriptResult := buildObjects MODEL_BASE_URL
    let app : FastAPIApp := r.app
    let constructed : List Event := buildTrace r
    if isMain then
      let portStr := (env "PORT").getD "8080"
      match pyInt portStr with
      | some port =>
        { trace := constructed ++ [.uvicornRun app "0.0.0.0" port], result := .ok r }
      | none =>
        { trace := constructed, result := .error (.valueError (intErrorMsg portStr)) }
    else
      { trace := constructed, result := .ok r }

/-- The environment in which no variable is set. -/
def emptyEnv : Env := fun _ => none

/-- An environment built from an association list of variable bindings. -/
def envOf (bindings : List (String × String)) : Env :=
  fun k => (bindings.find? (fun b => b.1 == k)).map (fun b => b.2)

/-- `env` with the variable `k` removed. -/
def removeVar (env : Env) (k : String) : Env :=
  fun x => if x == k then none else env x

example : pyInt "8080" = some 8080 := by decide
example : pyInt "9090" = some 9090 := by decide
example : pyInt "abc" = none := by decide
example : pyInt "" = none := by decide
example : pyInt " -8_0 " = some (-80) := by decide
example : pyInt "8_" = none := by decide
example : (runScript emptyEnv true).trace = [] := by rfl
example : opensListener (runScript (envOf [("BLOCKETHER_LLM_API_BASE_URL", "http://x")]) true) = true := by rfl

/-- C1: for every environment in which BLOCKETHER_LLM_API_BASE_URL is unset,
module execution raises a ValueError whose message mentions the missing
variable BLOCKETHER_LLM_API_BASE_URL, and no network listener is opened. -/
theorem baseUrlUnset_raises_and_no_listener (env : Env) (isMain : Bool)
    (h : env "BLOCKETHER_LLM_API_BASE_URL" = none) :
    (runScript env isMain).result = .error (.valueError missingBaseUrlMsg) ∧
    mentions "BLOCKETHER_LLM_API_BASE_URL" missingBaseUrlMsg = true ∧
    opensListener (runScript env isMain) = false := by
  refine ⟨?_, by decide, ?_⟩
  · simp [runScript, h, pyTruthy]
  · simp [runScript, h, pyTruthy, opensListener]

/-- Closed instance of `baseUrlUnset_raises_and_no_listener` at the empty
environment run as the main entry point. -/
theorem baseUrlUnset_raises_and_no_listener_witness :
    emptyEnv "BLOCKETHER_LLM_API_BASE_URL" = none ∧
    ((runScript emptyEnv true).result = .error (.valueError missingBaseUrlMsg) ∧
     mentions "BLOCKETHER_LLM_API_BASE_URL" missingBaseUrlMsg = true ∧
     opensListener (runScript emptyEnv true) = false) :=
  ⟨rfl, baseUrlUnset_raises_and_no_listener emptyEnv true rfl⟩

/-- C3: when the module is imported rather than executed as the main entry
point, no uvicorn.run event ever appears in the trace, for any environment. -/
theorem import_no_listener (env : Env) :
    opensListener (runScript env false) = false := by
  cases hB : pyTruthy (env "BLOCKETHER_LLM_API_BASE_URL") <;>
    simp [opensListener, runScript, hB, buildTrace, Event.isListen]

/-- C7: when BLOCKETHER_LLM_API_BASE_URL is falsy, the missing-configuration
error is raised with an empty trace: no storage, model, agent, application
or listener event precedes the failure. -/
theorem missing_config_fails_before_construction (env : Env) (isMain : Bool)
    (h : pyTruthy (env "BLOCKETHER_LLM_API_BASE_URL") = false) :
    (runScript env isMain).trace = [] ∧
    (runScript env isMain).result = .error (.valueError missingBaseUrlMsg) := by
  constructor <;> simp [runScript, h]

/-- Closed instance of `missing_config_fails_before_construction` at the
empty environment imported as a library. -/
theorem missing_config_fails_before_construction_witness :
    pyTruthy (emptyEnv "BLOCKETHER_LLM_API_BASE_URL") = false ∧
    ((runScript emptyEnv false).trace = [] ∧
     (runScript emptyEnv false).result = .error (.valueError missingBaseUrlMsg)) :=
  ⟨rfl, missing_config_fails_before_construction emptyEnv false rfl⟩

/-- C8: setting BLOCKETHER_LLM_API_BASE_URL to the empty string is treated
exactly as leaving it unset: the run is identical to the run with the
variable removed, and it fails with the missing-configuration error. -/
theorem empty_base_url_treated_as_unset (env : Env) (isMain : Bool)
    (h : env "BLOCKETHER_LLM_API_BASE_URL" = some "") :
    runScript env isMain =
      runScript (removeVar env "BLOCKETHER_LLM_API_BASE_URL") isMain ∧
    (runScript env isMain).result = .error (.valueError missingBaseUrlMsg) := by
  constructor
  · simp [runScript, removeVar, h, pyTruthy]
  · simp [runScript, h, pyTruthy]

/-- Closed instance of `empty_base_url_treated_as_unset` at the environment
where only BLOCKETHER_LLM_API_BASE_URL is set, to the empty string. -/
theorem empty_base_url_treated_as_unset_witness :
    envOf [("BLOCKETHER_LLM_API_BASE_URL", "")] "BLOCKETHER_LLM_API_BASE_URL" = some "" ∧
    (runScript (envOf [("BLOCKETHER_LLM_API_BASE_URL", "")]) true =
       runScript (removeVar (envOf [("BLOCKETHER_LLM_API_BASE_URL", "")])
         "BLOCKETHER_LLM_API_BASE_URL") true ∧
     (runScript (envOf [("BLOCKETHER_LLM_API_BASE_URL", "")]) true).result =
       .error (.valueError missingBaseUrlMsg)) :=
  ⟨rfl, empty_base_url_treated_as_unset (envOf [("BLOCKETHER_LLM_API_BASE_URL", "")]) true rfl⟩

/-- Concrete environment: only the base URL is set. -/
def envBaseOnly : Env := envOf [("BLOCKETHER_LLM_API_BASE_URL", "http://x")]

/-- Concrete environment: base URL set and PORT=9090. -/
def envBasePort9090 : Env :=
  envOf [("BLOCKETHER_LLM_API_BASE_URL", "http://x"), ("PORT", "9090")]

/-- Concrete environment: base URL set and PORT set to a non-integer. -/
def envBaseBadPort : Env :=
  envOf [("BLOCKETHER_LLM_API_BASE_URL", "http://x"), ("PORT", "abc")]

/-- Concrete environment: base URL set and an API key set. -/
def envBaseWithKey : Env :=
  envOf [("BLOCKETHER_LLM_API_BASE_URL", "http://x"), ("BLOCKETHER_LLM_API_KEY", "secret")]

/-- C2: with a truthy base URL and run as the main entry point, the run's
listen events consist of exactly one uvicorn.run call on host 0.0.0.0,
whose port is 8080 when PORT is unset and the integer value of PORT when
PORT is set to a string that parses as an integer. -/
theorem mainRun_binds_host_and_port (env : Env)
    (h : pyTruthy (env "BLOCKETHER_LLM_API_BASE_URL") = true) :
    (env "PORT" = none →
      listenEvents (runScript env true) =
        [.uvicornRun (buildObjects (env "BLOCKETHER_LLM_API_BASE_URL")).app
          "0.0.0.0" 8080]) ∧
    (∀ p n, env "PORT" = some p → pyInt p = some n →
      listenEvents (runScript env true) =
        [.uvicornRun (buildObjects (env "BLOCKETHER_LLM_API_BASE_URL")).app
          "0.0.0.0" n]) := by
  constructor
  · intro hP
    simp [listenEvents, runScript, h, hP, buildTrace, Event.isListen,
      show pyInt "8080" = some 8080 from by decide]
  · intro p n hP hn
    simp [listenEvents, runScript, h, hP, hn, buildTrace, Event.isListen]

/-- Closed instance of `mainRun_binds_host_and_port`: with PORT=9090 the
single listen event binds host 0.0.0.0 and port 9090. -/
theorem mainRun_binds_host_and_port_witness :
    pyTruthy (envBasePort9090 "BLOCKETHER_LLM_API_BASE_URL") = true ∧
    envBasePort9090 "PORT" = some "9090" ∧ pyInt "9090" = some 9090 ∧
    listenEvents (runScript envBasePort9090 true) =
      [.uvicornRun (buildObjects (envBasePort9090 "BLOCKETHER_LLM_API_BASE_URL")).app
        "0.0.0.0" 9090] :=
  ⟨by decide, rfl, by decide,
   (mainRun_binds_host_and_port envBasePort9090 (by decide)).2 "9090" 9090 rfl (by decide)⟩

/-- C4: whenever module execution succeeds, the construction events of the
trace are exactly, in order: storage, model client, agent, server
application, web handler. -/
theorem successful_startup_construction_order (env : Env) (isMain : Bool)
    (h : (runScript env isMain).succeeded = true) :
    constructionKinds (runScript env isMain) =
      [.storage, .model, .agent, .agentOS, .app] := by
  cases hB : pyTruthy (env "BLOCKETHER_LLM_API_BASE_URL")
  · exfalso
    simp [Run.succeeded, runScript, hB] at h
  · cases isMain
    · simp [constructionKinds, runScript, hB, buildTrace, Event.isListen, Event.kind]
    · cases hP : pyInt ((env "PORT").getD "8080")
      · exfalso
        simp [Run.succeeded, runScript, hB, hP] at h
      · simp [constructionKinds, runScript, hB, hP, buildTrace, Event.isListen, Event.kind]

/-- Closed instance of `successful_startup_construction_order` at an
environment with the base URL set, imported as a library. -/
theorem successful_startup_construction_order_witness :
    (runScript envBaseOnly false).succeeded = true ∧
    constructionKinds (runScript envBaseOnly false) =
      [.storage, .model, .agent, .agentOS, .app] :=
  ⟨rfl, successful_startup_construction_order envBaseOnly false rfl⟩

/-- C5: on any successful run, the objects are wired as the script writes
them: the model client holds id "gpt-4o" and the base URL read from the
environment, the agent holds that model and the storage, and the AgentOS
wraps that agent in its agents and interfaces lists with the MCP
protocol-server flag enabled, the app being its web handler. -/
theorem object_wiring (env : Env) (isMain : Bool) (r : ScriptResult)
    (h : (runScript env isMain).result = .ok r) :
    r.blockether_model.base_url = env "BLOCKETHER_LLM_API_BASE_URL" ∧
    r.blockether_model.id = "gpt-4o" ∧
    r.conversational_agent.model = r.blockether_model ∧
    r.conversational_agent.db = r.storage ∧
    r.agent_os.agents = [r.conversational_agent] ∧
    r.agent_os.enable_mcp_server = true ∧
    r.agent_os.interfaces = [{ agent := r.conversational_agent }] ∧
    r.app = r.agent_os.get_app := by
  have hr : r = buildObjects (env "BLOCKETHER_LLM_API_BASE_URL") := by
    cases hB : pyTruthy (env "BLOCKETHER_LLM_API_BASE_URL")
    · simp [runScript, hB] at h
    · cases isMain
      · simp [runScript, hB] at h
        exact h.symm
      · cases hP : pyInt ((env "PORT").getD "8080")
        · simp [runScript, hB, hP] at h
        · simp [runScript, hB, hP] at h
          exact h.symm
  subst hr
  simp [buildObjects, AgentOS.get_app]

/-- Closed instance of `object_wiring` at an environment with the base URL
set, imported as a library. -/
theorem object_wiring_witness :
    (runScript envBaseOnly false).result =
      .ok (buildObjects (envBaseOnly "BLOCKETHER_LLM_API_BASE_URL")) ∧
    ((buildObjects (envBaseOnly "BLOCKETHER_LLM_API_BASE_URL")).blockether_model.base_url =
       envBaseOnly "BLOCKETHER_LLM_API_BASE_URL" ∧
     (buildObjects (envBaseOnly "BLOCKETHER_LLM_API_BASE_URL")).blockether_model.id = "gpt-4o" ∧
     (buildObjects (envBaseOnly "BLOCKETHER_LLM_API_BASE_URL")).conversational_agent.model =
       (buildObjects (envBaseOnly "BLOCKETHER_LLM_API_BASE_URL")).blockether_model ∧
     (buildObjects (envBaseOnly "BLOCKETHER_LLM_API_BASE_URL")).conversational_agent.db =
       (buildObjects (envBaseOnly "BLOCKETHER_LLM_API_BASE_URL")).storage ∧
     (buildObjects (envBaseOnly "BLOCKETHER_LLM_API_BASE_URL")).agent_os.agents =
       [(buildObjects (envBaseOnly "BLOCKETHER_LLM_API_BASE_URL")).conversational_agent] ∧
     (buildObjects (envBaseOnly "BLOCKETHER_LLM_API_BASE_URL")).agent_os.enable_mcp_server = true ∧
     (buildObjects (envBaseOnly "BLOCKETHER_LLM_API_BASE_URL")).agent_os.interfaces =
       [{ agent := (buildObjects (envBaseOnly "BLOCKETHER_LLM_API_BASE_URL")).conversational_agent }] ∧
     (buildObjects (envBaseOnly "BLOCKETHER_LLM_API_BASE_URL")).app =
       (buildObjects (envBaseOnly "BLOCKETHER_LLM_API_BASE_URL")).agent_os.get_app) :=
  ⟨rfl, object_wiring envBaseOnly false _ rfl⟩

/-- C6: with a truthy base URL and no API key in the environment, module
execution does not fail: import-mode execution succeeds, and main-mode
execution succeeds when PORT is unset. -/
theorem missing_api_key_no_failure (env : Env)
    (h1 : pyTruthy (env "BLOCKETHER_LLM_API_BASE_URL") = true)
    (h2 : env "BLOCKETHER_LLM_API_KEY" = none) :
    (runScript env false).succeeded = true ∧
    (env "PORT" = none → (runScript env true).succeeded = true) := by
  constructor
  · simp [Run.succeeded, runScript, h1]
  · intro hP
    simp [Run.succeeded, runScript, h1, hP,
      show pyInt "8080" = some 8080 from by decide]

/-- Closed instance of `missing_api_key_no_failure` at the environment
where only the base URL is set. -/
theorem missing_api_key_no_failure_witness :
    pyTruthy (envBaseOnly "BLOCKETHER_LLM_API_BASE_URL") = true ∧
    envBaseOnly "BLOCKETHER_LLM_API_KEY" = none ∧
    ((runScript envBaseOnly false).succeeded = true ∧
     (envBaseOnly "PORT" = none → (runScript envBaseOnly true).succeeded = true)) :=
  ⟨by decide, rfl, missing_api_key_no_failure envBaseOnly (by decide) rfl⟩

/-- C9: run as the main entry point with a truthy base URL and PORT set to
a string that int() rejects, the run ends in the int() ValueError (no
fallback to 8080) and no listener is opened. -/
theorem invalid_port_fails_no_listener (env : Env) (p : String)
    (h1 : pyTruthy (env "BLOCKETHER_LLM_API_BASE_URL") = true)
    (h2 : env "PORT" = some p) (h3 : pyInt p = none) :
    (runScript env true).result = .error (.valueError (intErrorMsg p)) ∧
    opensListener (runScript env true) = false := by
  constructor
  · simp [runScript, h1, h2, h3]
  · simp [opensListener, runScript, h1, h2, h3, buildTrace, Event.isListen]

/-- Closed instance of `invalid_port_fails_no_listener` at PORT="abc". -/
theorem invalid_port_fails_no_listener_witness :
    pyTruthy (envBaseBadPort "BLOCKETHER_LLM_API_BASE_URL") = true ∧
    envBaseBadPort "PORT" = some "abc" ∧ pyInt "abc" = none ∧
    ((runScript envBaseBadPort true).result =
       .error (.valueError (intErrorMsg "abc")) ∧
     opensListener (runScript envBaseBadPort true) = false) :=
  ⟨by decide, rfl, by decide,
   invalid_port_fails_no_listener envBaseBadPort "abc" (by decide) rfl (by decide)⟩

/-- C10: the value of BLOCKETHER_LLM_API_KEY does not influence the run:
two environments that agree on every variable other than that key produce
identical runs (same trace, same objects, same result). -/
theorem api_key_noninterference (env1 env2 : Env) (isMain : Bool)
    (h : ∀ k, k ≠ "BLOCKETHER_LLM_API_KEY" → env1 k = env2 k) :
    runScript env1 isMain = runScript env2 isMain := by
  have hb := h "BLOCKETHER_LLM_API_BASE_URL" (by decide)
  have hp := h "PORT" (by decide)
  simp only [runScript, hb, hp]

/-- Closed instance of `api_key_noninterference`: whether the API key is
set to "secret" or absent, main-mode execution is identical. -/
theorem api_key_noninterference_witness :
    runScript envBaseWithKey true = runScript envBaseOnly true :=
  api_key_noninterference envBaseWithKey envBaseOnly true (by
    intro k hk
    have hkey : (("BLOCKETHER_LLM_API_KEY" : String) == k) = false := by
      rw [beq_eq_false_iff_ne]
      exact fun hkk => hk hkk.symm
    cases hc : (("BLOCKETHER_LLM_API_BASE_URL" : String) == k) <;>
      simp [envBaseWithKey, envBaseOnly, envOf, List.find?, hc, hkey])
